import Mathlib

/-!
Shallow embedding of the Stress-Level-Prediction service
(`src/pydantic_models.py` and `src/api.py`).

Pure data and control flow are translated directly from the source.  The
external collaborators (the PostgreSQL stored procedures reached through
`databases`, the joblib model artifact, FastAPI's HTTP layer) are modelled
as explicit parameters: a boolean success flag for each stored-procedure
call, a boolean flag for whether the model artifact loads, and an opaque
classifier function from the extracted feature mapping to a class index.
Python exceptions that the code converts into `HTTPException(500, ...)`
are modelled with `Except`; exceptions the code does not catch
(`joblib.load` errors, `IndexError` from the label lookup) are modelled as
distinguished error values that the framework turns into a generic 500.
Pydantic validation is modelled as a function from a record of optional
raw fields to `Option` of the validated record; `none` is a pydantic
`ValidationError` (HTTP 422), never a crash.
-/

/-- Result of `datetime.strptime`: a calendar instant (no timezone). -/
structure DateTime where
  year : Nat
  month : Nat
  day : Nat
  hour : Nat
  minute : Nat
  second : Nat
deriving DecidableEq

/-- ASCII decimal digit test, as used by the `strptime` regular expressions. -/
def isDigitChar (c : Char) : Bool := 48 ≤ c.toNat && c.toNat ≤ 57

/-- Numeric value of an ASCII digit. -/
def digitVal (c : Char) : Nat := c.toNat - 48

/-- Consume one decimal digit. -/
def readDigit : List Char → Option (Nat × List Char)
  | [] => none
  | c :: rest => if isDigitChar c then some (digitVal c, rest) else none

/-- CPython `_strptime` directive `%Y`: exactly four decimal digits. -/
def readYear (cs : List Char) : Option (Nat × List Char) := do
  let (a, cs) ← readDigit cs
  let (b, cs) ← readDigit cs
  let (c, cs) ← readDigit cs
  let (d, cs) ← readDigit cs
  pure (1000 * a + 100 * b + 10 * c + d, cs)

/-- CPython `_strptime` numeric directives `%m`, `%d`, `%H`, `%M`, `%S`:
one or two decimal digits, the leading zero being optional.  Two digits are
consumed greedily; since every such field is followed by a non-digit
(separator or end of input), this is equivalent to the regex alternation
used by `_strptime`. -/
def readNum2 (cs : List Char) : Option (Nat × List Char) := do
  let (a, cs1) ← readDigit cs
  match readDigit cs1 with
  | some (b, cs2) => pure (10 * a + b, cs2)
  | none => pure (a, cs1)

/-- Consume one expected literal character. -/
def expectChar (c : Char) : List Char → Option (List Char)
  | [] => none
  | x :: rest => if x = c then some rest else none

/-- Python regex `\s` on ASCII: space, tab, newline, carriage return,
vertical tab, form feed. -/
def isSpaceChar (c : Char) : Bool :=
  c == ' ' || c.toNat == 9 || c.toNat == 10 || c.toNat == 13 ||
    c.toNat == 11 || c.toNat == 12

/-- Drop any further whitespace characters. -/
def dropSpaces : List Char → List Char
  | [] => []
  | c :: rest => if isSpaceChar c then dropSpaces rest else c :: rest

/-- A whitespace run in a `strptime` format string matches `\s+`:
one or more whitespace characters. -/
def expectSpaces : List Char → Option (List Char)
  | [] => none
  | c :: rest => if isSpaceChar c then some (dropSpaces rest) else none

/-- Gregorian leap-year rule used by `datetime`. -/
def isLeapYear (y : Nat) : Bool :=
  (y % 4 == 0 && y % 100 != 0) || y % 400 == 0

/-- Number of days in a month, as enforced by the `datetime` constructor. -/
def daysInMonth (y m : Nat) : Nat :=
  if m == 2 then (if isLeapYear y then 29 else 28)
  else if m == 4 || m == 6 || m == 9 || m == 11 then 30
  else 31

/-- Bound check for a parsed numeric field, following the `_strptime`
regular expressions. -/
def checkNum (lo hi : Nat) (p : Nat × List Char) : Option (Nat × List Char) :=
  if lo ≤ p.1 && p.1 ≤ hi then some p else none

/-- Date half of the format `"%Y-%m-%d %H:%M:%S"`: `%Y` (four digits),
a dash, `%m` (1..12), a dash, `%d` (1..31). -/
def readDatePart (cs : List Char) : Option (Nat × Nat × Nat × List Char) :=
  (readYear cs).bind fun (y, cs) =>
  (expectChar '-' cs).bind fun cs =>
  ((readNum2 cs).bind (checkNum 1 12)).bind fun (mo, cs) =>
  (expectChar '-' cs).bind fun cs =>
  ((readNum2 cs).bind (checkNum 1 31)).bind fun (dy, cs) =>
  some (y, mo, dy, cs)

/-- Time half of the format `"%Y-%m-%d %H:%M:%S"`: `%H` (0..23), a colon,
`%M` (0..59), a colon, `%S` (0..61, leap seconds allowed by the regex). -/
def readTimePart (cs : List Char) : Option (Nat × Nat × Nat × List Char) :=
  ((readNum2 cs).bind (checkNum 0 23)).bind fun (hr, cs) =>
  (expectChar ':' cs).bind fun cs =>
  ((readNum2 cs).bind (checkNum 0 59)).bind fun (mi, cs) =>
  (expectChar ':' cs).bind fun cs =>
  ((readNum2 cs).bind (checkNum 0 61)).bind fun (sec, cs) =>
  some (hr, mi, sec, cs)

/-- The `info_date` pre-validator of `WorkerWithFeatures`
(`src/pydantic_models.py`, `parse_datetime`): it calls
`datetime.strptime(value, "%Y-%m-%d %H:%M:%S")`.  The date and time parts
follow the `_strptime` regular expressions, the whole input must be
consumed, and the final `datetime(...)` construction additionally
requires year at least `MINYEAR = 1`, a day that exists in the given
month, and seconds at most 59.  A `ValueError` raised anywhere in this
process is a pydantic validation failure, modelled as `none`. -/
def parse_datetime (s : String) : Option DateTime :=
  (readDatePart s.data).bind fun (y, mo, dy, cs) =>
  (expectSpaces cs).bind fun cs =>
  (readTimePart cs).bind fun (hr, mi, sec, cs) =>
  if cs = [] && 1 ≤ y && dy ≤ daysInMonth y mo && sec ≤ 59 then
    some { year := y, month := mo, day := dy,
           hour := hr, minute := mi, second := sec }
  else none

/-- Written from the spec's words, for comparison with the source behavior:
a string is in the exact textual format `YYYY-MM-DD HH:MM:SS` when it is
nineteen characters long with four digits, a dash, two digits, a dash, two
digits, one space, two digits, a colon, two digits, a colon and two
digits. -/
def specExactFormat (s : String) : Bool :=
  match s.data with
  | [y1, y2, y3, y4, dash1, m1, m2, dash2, a1, a2, sp,
     h1, h2, colon1, n1, n2, colon2, e1, e2] =>
      isDigitChar y1 && isDigitChar y2 && isDigitChar y3 && isDigitChar y4 &&
      dash1 == '-' && isDigitChar m1 && isDigitChar m2 && dash2 == '-' &&
      isDigitChar a1 && isDigitChar a2 && sp == ' ' &&
      isDigitChar h1 && isDigitChar h2 && colon1 == ':' &&
      isDigitChar n1 && isDigitChar n2 && colon2 == ':' &&
      isDigitChar e1 && isDigitChar e2
  | _ => false

/-- `WorkerBase` (`src/pydantic_models.py`): the identity fields. -/
structure WorkerBase where
  first_name : String
  last_name : String
  surname : String
deriving DecidableEq

/-- `WorkerWithPrediction`: identity plus the stress-level label. -/
structure WorkerWithPrediction where
  first_name : String
  last_name : String
  surname : String
  stress_level : String
deriving DecidableEq

/-- `WorkerWithHistory`: identity plus the mental-health-history flag. -/
structure WorkerWithHistory where
  first_name : String
  last_name : String
  surname : String
  mental_health_history : Bool
deriving DecidableEq

/-- `WorkerWithFeatures`: identity, history, timestamp and the ten bounded
integer scores, in pydantic field-declaration order. -/
structure WorkerWithFeatures where
  first_name : String
  last_name : String
  surname : String
  mental_health_history : Bool
  info_date : DateTime
  anxiety : Int
  self_esteem : Int
  depression : Int
  headache : Int
  blood_pressure : Int
  sleep_quality : Int
  breathing_problem : Int
  noise_level : Int
  social_support : Int
  extracurricular_activities : Int
deriving DecidableEq

/-- Raw (pre-validation) identity payload: each field either present with a
string value or missing. -/
structure IdentityInput where
  first_name : Option String
  last_name : Option String
  surname : Option String
deriving DecidableEq

/-- Pydantic validation of `WorkerBase`: the three identity fields are
required plain `str` fields with no further constraint, so validation
succeeds exactly when all three are present (any string value, including
the empty string, is accepted). -/
def WorkerBase.validate (inp : IdentityInput) : Option WorkerBase := do
  let f ← inp.first_name
  let l ← inp.last_name
  let sn ← inp.surname
  pure { first_name := f, last_name := l, surname := sn }

/-- Raw (pre-validation) `WorkerWithFeatures` payload. -/
structure WorkerWithFeaturesInput where
  first_name : Option String
  last_name : Option String
  surname : Option String
  mental_health_history : Option Bool
  info_date : Option String
  anxiety : Option Int
  self_esteem : Option Int
  depression : Option Int
  headache : Option Int
  blood_pressure : Option Int
  sleep_quality : Option Int
  breathing_problem : Option Int
  noise_level : Option Int
  social_support : Option Int
  extracurricular_activities : Option Int
deriving DecidableEq

/-- Closed-interval bound check of a pydantic `Field(ge=lo, le=hi)`. -/
def checkRange (lo hi v : Int) : Option Int :=
  if lo ≤ v && v ≤ hi then some v else none

/-- Identity fields of a raw features payload: required plain strings. -/
def validateIdentity (inp : WorkerWithFeaturesInput) :
    Option (String × String × String) :=
  inp.first_name.bind fun f =>
  inp.last_name.bind fun l =>
  inp.surname.bind fun sn =>
  some (f, l, sn)

/-- History flag and timestamp of a raw features payload: both required,
the timestamp going through the `parse_datetime` pre-validator. -/
def validateHeader (inp : WorkerWithFeaturesInput) : Option (Bool × DateTime) :=
  inp.mental_health_history.bind fun mhh =>
  inp.info_date.bind fun ds =>
  (parse_datetime ds).bind fun d =>
  some (mhh, d)

/-- First five bounded score fields, with their `Field(ge, le)` bounds;
`blood_pressure` defaults to `1` when omitted. -/
def validateScoresA (inp : WorkerWithFeaturesInput) :
    Option (Int × Int × Int × Int × Int) :=
  (inp.anxiety.bind (checkRange 0 21)).bind fun anx =>
  (inp.self_esteem.bind (checkRange 0 30)).bind fun se =>
  (inp.depression.bind (checkRange 0 27)).bind fun dep =>
  (inp.headache.bind (checkRange 0 5)).bind fun hd =>
  (checkRange 1 3 (inp.blood_pressure.getD 1)).bind fun bp =>
  some (anx, se, dep, hd, bp)

/-- Last five bounded score fields, with their `Field(ge, le)` bounds. -/
def validateScoresB (inp : WorkerWithFeaturesInput) :
    Option (Int × Int × Int × Int × Int) :=
  (inp.sleep_quality.bind (checkRange 0 5)).bind fun sq =>
  (inp.breathing_problem.bind (checkRange 0 5)).bind fun br =>
  (inp.noise_level.bind (checkRange 0 5)).bind fun nl =>
  (inp.social_support.bind (checkRange 0 3)).bind fun ss =>
  (inp.extracurricular_activities.bind (checkRange 0 5)).bind fun ea =>
  some (sq, br, nl, ss, ea)

/-- Pydantic validation of `WorkerWithFeatures`
(`src/pydantic_models.py`): every field is required except
`blood_pressure`, which defaults to `1` when omitted; `info_date` goes
through the `parse_datetime` pre-validator; each integer score is
constrained by its `Field(ge=..., le=...)` closed interval.  `none`
models a `ValidationError` (HTTP 422). -/
def validate_WorkerWithFeatures (inp : WorkerWithFeaturesInput) :
    Option WorkerWithFeatures :=
  (validateIdentity inp).bind fun (f, l, sn) =>
  (validateHeader inp).bind fun (mhh, d) =>
  (validateScoresA inp).bind fun (anx, se, dep, hd, bp) =>
  (validateScoresB inp).bind fun (sq, br, nl, ss, ea) =>
  some { first_name := f, last_name := l, surname := sn,
         mental_health_history := mhh, info_date := d,
         anxiety := anx, self_esteem := se, depression := dep,
         headache := hd, blood_pressure := bp, sleep_quality := sq,
         breathing_problem := br, noise_level := nl, social_support := ss,
         extracurricular_activities := ea }

/-- Value of one entry of `worker.dict()` in `parse_features`. -/
inductive PyValue where
  | str (s : String)
  | bool (b : Bool)
  | datetime (d : DateTime)
  | int (n : Int)
deriving DecidableEq

/-- Python `int(value)` on the values that can appear in the filtered
dictionary of `parse_features`: integers map to themselves and booleans to
0 or 1; strings and datetimes (which are always filtered out before the
conversion) would raise, modelled as `none`. -/
def pyInt : PyValue → Option Int
  | .int n => some n
  | .bool b => some (if b then 1 else 0)
  | _ => none

/-- `worker.dict()` for a `WorkerWithFeatures`: pydantic v1 returns the
fields in declaration order, inherited fields first. -/
def worker_dict (w : WorkerWithFeatures) : List (String × PyValue) :=
  [("first_name", .str w.first_name),
   ("last_name", .str w.last_name),
   ("surname", .str w.surname),
   ("mental_health_history", .bool w.mental_health_history),
   ("info_date", .datetime w.info_date),
   ("anxiety", .int w.anxiety),
   ("self_esteem", .int w.self_esteem),
   ("depression", .int w.depression),
   ("headache", .int w.headache),
   ("blood_pressure", .int w.blood_pressure),
   ("sleep_quality", .int w.sleep_quality),
   ("breathing_problem", .int w.breathing_problem),
   ("noise_level", .int w.noise_level),
   ("social_support", .int w.social_support),
   ("extracurricular_activities", .int w.extracurricular_activities)]

/-- The `excluded` list of `parse_features` (`src/api.py` line 154). -/
def excludedKeys : List String :=
  ["first_name", "last_name", "surname", "info_date"]

/-- `parse_features` (`src/api.py` lines 140-158): the dictionary
comprehension keeps the entries of `worker.dict()` whose key is not in
`excluded` and applies `int` to their values, preserving insertion
order. -/
def parse_features (w : WorkerWithFeatures) : List (String × Int) :=
  (worker_dict w).filterMap fun kv =>
    if excludedKeys.contains kv.1 then none
    else (pyInt kv.2).map fun n => (kv.1, n)

/-- `fastapi.HTTPException`: status code plus detail message. -/
structure HTTPException where
  status_code : Nat
  detail : String
deriving DecidableEq

/-- Row written by the `save_features` stored procedure: `worker.dict()`
minus `mental_health_history` (`src/api.py` line 174). -/
structure FeaturesRow where
  first_name : String
  last_name : String
  surname : String
  info_date : DateTime
  anxiety : Int
  self_esteem : Int
  depression : Int
  headache : Int
  blood_pressure : Int
  sleep_quality : Int
  breathing_problem : Int
  noise_level : Int
  social_support : Int
  extracurricular_activities : Int
deriving DecidableEq

/-- Projection of a validated worker to the row passed to
`CALL save_features(...)`. -/
def featuresRow (w : WorkerWithFeatures) : FeaturesRow :=
  { first_name := w.first_name, last_name := w.last_name, surname := w.surname,
    info_date := w.info_date, anxiety := w.anxiety,
    self_esteem := w.self_esteem, depression := w.depression,
    headache := w.headache, blood_pressure := w.blood_pressure,
    sleep_quality := w.sleep_quality, breathing_problem := w.breathing_problem,
    noise_level := w.noise_level, social_support := w.social_support,
    extracurricular_activities := w.extracurricular_activities }

/-- State of the external store: the feature rows and prediction rows
persisted so far. -/
structure Store where
  features : List FeaturesRow
  predictions : List WorkerWithPrediction
deriving DecidableEq

/-- `save_features` (`src/api.py` lines 161-187): one stored-procedure
call; any exception is replaced by `HTTPException(500, ...)` with the
features-specific message, and nothing is written.  `dbOk` models whether
the underlying `database.execute` succeeds. -/
def save_features (dbOk : Bool) (w : WorkerWithFeatures) (s : Store) :
    Except HTTPException Store :=
  match dbOk with
  | true => .ok { s with features := s.features ++ [featuresRow w] }
  | false =>
      .error { status_code := 500,
               detail := "Не удалось сохранить показатели работника" }

/-- `save_prediction` (`src/api.py` lines 189-208): one stored-procedure
call; any exception is replaced by `HTTPException(500, ...)` with the
prediction-specific message. -/
def save_prediction (dbOk : Bool) (w : WorkerWithPrediction) (s : Store) :
    Except HTTPException Store :=
  match dbOk with
  | true => .ok { s with predictions := s.predictions ++ [w] }
  | false =>
      .error { status_code := 500, detail := "Не удалось сохранить прогноз" }

/-- Failures of `get_prediction` that the source does not catch:
`joblib.load` raising (artifact missing or unreadable) and `IndexError`
from the label lookup. -/
inductive ModelFailure where
  | loadFailure
  | indexFailure
deriving DecidableEq

/-- The `STRESS_LEVEL` label list of `get_prediction`
(`src/api.py` lines 132-136), byte-for-byte. -/
def STRESS_LEVEL : List String :=
  ["Низкий уровень стресса",
   "Средний уровень стресса",
   "Высокий уровень стресса"]

/-- Python list subscription `xs[i]`: non-negative indices below the
length index from the front, indices in `[-len, -1]` index from the back,
anything else raises `IndexError` (modelled as `none`). -/
def pyListGet (xs : List String) (i : Int) : Option String :=
  if 0 ≤ i then
    (if i < (xs.length : Int) then xs.get? i.toNat else none)
  else
    (if 0 ≤ i + (xs.length : Int) then xs.get? (i + (xs.length : Int)).toNat
     else none)

/-- `get_prediction` (`src/api.py` lines 118-137): load the model artifact
(`modelLoaded` models whether `joblib.load` succeeds; its exception is not
caught), ask the classifier for a class index (`classIndex` models
`model.predict(data)[0]`), and subscript `STRESS_LEVEL` with it using
Python list-indexing semantics. -/
def get_prediction (modelLoaded : Bool) (classIndex : Int) :
    Except ModelFailure String :=
  match modelLoaded with
  | false => .error .loadFailure
  | true =>
      match pyListGet STRESS_LEVEL classIndex with
      | some label => .ok label
      | none => .error .indexFailure

/-- An exception the handler does not catch is turned by FastAPI into a
generic 500 response. -/
def unhandledException : ModelFailure → HTTPException :=
  fun _ => { status_code := 500, detail := "Internal Server Error" }

/-- Environment of one `/worker_stress_level/` request: whether each of
the two stored-procedure calls succeeds, whether the model artifact loads,
and the opaque classifier from the extracted feature mapping to the class
index. -/
structure PipelineEnv where
  featuresSaveOk : Bool
  modelLoaded : Bool
  classify : List (String × Int) → Int
  predictionSaveOk : Bool

/-- Observable side-effect attempts of the pipeline, in order. -/
inductive PipelineEvent where
  | predictCalled
  | savePredictionAttempted
deriving DecidableEq

/-- `get_worker_stress_level` (`src/api.py` lines 211-234): save the
features, extract the feature mapping, predict, build the
`WorkerWithPrediction`, save it, and return it.  The result is the HTTP
outcome together with the final store state and the list of side-effect
attempts after the feature save, in execution order. -/
def get_worker_stress_level (env : PipelineEnv) (worker : WorkerWithFeatures)
    (s : Store) :
    Except HTTPException WorkerWithPrediction × Store × List PipelineEvent :=
  match save_features env.featuresSaveOk worker s with
  | .error e => (.error e, s, [])
  | .ok store1 =>
      match get_prediction env.modelLoaded
          (env.classify (parse_features worker)) with
      | .error f =>
          (.error (unhandledException f), store1, [PipelineEvent.predictCalled])
      | .ok prediction =>
          let wp : WorkerWithPrediction :=
            { first_name := worker.first_name, last_name := worker.last_name,
              surname := worker.surname, stress_level := prediction }
          match save_prediction env.predictionSaveOk wp store1 with
          | .error e =>
              (.error e, store1,
               [PipelineEvent.predictCalled,
                PipelineEvent.savePredictionAttempted])
          | .ok store2 =>
              (.ok wp, store2,
               [PipelineEvent.predictCalled,
                PipelineEvent.savePredictionAttempted])

/-- FastAPI responds with status 200 on success unless the route decorator
specifies a status_code. -/
def fastapi_default_status : Nat := 200

/-- Success status of `POST /create_worker/`.  The decorator
`@app.post("/create_worker/")` passes no status_code; the `status_code=201`
in the handler signature (`src/api.py` line 238) is an ordinary keyword
parameter of the function, which FastAPI reads as a query parameter with
default 201, not as the response status, so the route keeps the framework
default. -/
def create_worker_success_status : Nat := fastapi_default_status

/-- `create_worker` (`src/api.py` lines 237-265): one stored-procedure
call (`dbOk` models its success); on failure `HTTPException(500, ...)`,
on success the response status and the success message built from the
worker's first and last name. -/
def create_worker (dbOk : Bool) (w : WorkerWithHistory) :
    Except HTTPException (Nat × String) :=
  match dbOk with
  | false =>
      .error { status_code := 500, detail := "Не удалось добавить работника" }
  | true =>
      .ok (create_worker_success_status,
           "Работник " ++ w.first_name ++ " " ++ w.last_name ++
             " был успешно добавлен")

/-- A raw payload with all fields present and valid, taken from the spec's
end-to-end example. -/
def baseInput : WorkerWithFeaturesInput :=
  { first_name := some "Иван", last_name := some "Петров",
    surname := some "Иванович",
    mental_health_history := some false,
    info_date := some "2023-06-01 09:00:00",
    anxiety := some 10, self_esteem := some 20, depression := some 5,
    headache := some 2, blood_pressure := some 2, sleep_quality := some 3,
    breathing_problem := some 1, noise_level := some 2,
    social_support := some 1, extracurricular_activities := some 3 }

/-- Replace the i-th bounded score field of a raw payload (0 = anxiety,
..., 9 = extracurricular_activities, in declaration order). -/
def setScore (inp : WorkerWithFeaturesInput) (i : Nat) (v : Option Int) :
    WorkerWithFeaturesInput :=
  match i with
  | 0 => { inp with anxiety := v }
  | 1 => { inp with self_esteem := v }
  | 2 => { inp with depression := v }
  | 3 => { inp with headache := v }
  | 4 => { inp with blood_pressure := v }
  | 5 => { inp with sleep_quality := v }
  | 6 => { inp with breathing_problem := v }
  | 7 => { inp with noise_level := v }
  | 8 => { inp with social_support := v }
  | 9 => { inp with extracurricular_activities := v }
  | _ => inp

/-- Lower bound (`ge`) of the i-th bounded score field. -/
def scoreLo : Nat → Int
  | 4 => 1
  | _ => 0

/-- Upper bound (`le`) of the i-th bounded score field. -/
def scoreHi : Nat → Int
  | 0 => 21
  | 1 => 30
  | 2 => 27
  | 3 => 5
  | 4 => 3
  | 5 => 5
  | 6 => 5
  | 7 => 5
  | 8 => 3
  | 9 => 5
  | _ => 0

/-- A concrete validated worker (the spec's end-to-end example). -/
def worker0 : WorkerWithFeatures :=
  { first_name := "Иван", last_name := "Петров", surname := "Иванович",
    mental_health_history := false,
    info_date := { year := 2023, month := 6, day := 1,
                   hour := 9, minute := 0, second := 0 },
    anxiety := 10, self_esteem := 20, depression := 5, headache := 2,
    blood_pressure := 2, sleep_quality := 3, breathing_problem := 1,
    noise_level := 2, social_support := 1, extracurricular_activities := 3 }

/-- An empty store. -/
def store0 : Store := { features := [], predictions := [] }

/-- Environment in which the feature save fails. -/
def envFeatFail : PipelineEnv :=
  { featuresSaveOk := false, modelLoaded := true,
    classify := fun _ => 0, predictionSaveOk := true }

/-- Environment in which the feature save succeeds and the prediction save
fails. -/
def envPredSaveFail : PipelineEnv :=
  { featuresSaveOk := true, modelLoaded := true,
    classify := fun _ => 0, predictionSaveOk := false }

/-- Environment in which everything succeeds and the classifier returns
index 1. -/
def envAllOk : PipelineEnv :=
  { featuresSaveOk := true, modelLoaded := true,
    classify := fun _ => 1, predictionSaveOk := true }

/-- Expected successful response for `worker0` under `envAllOk`. -/
def wp0 : WorkerWithPrediction :=
  { first_name := "Иван", last_name := "Петров", surname := "Иванович",
    stress_level := "Средний уровень стресса" }

/-- C1 counterexample: on a concrete validated record, `parse_features`
does not produce the nine-score mapping claimed: its key list differs from
the claimed list of bounded scores, and `mental_health_history` is among
its keys. -/
theorem parse_features_not_nine_scores :
    ((parse_features worker0).map Prod.fst ≠
      ["anxiety", "self_esteem", "depression", "headache", "blood_pressure",
       "sleep_quality", "breathing_problem", "noise_level", "social_support",
       "extracurricular_activities"]) ∧
    "mental_health_history" ∈ (parse_features worker0).map Prod.fst := by
  decide

/-- C1 (amended): for every validated record, `parse_features` produces
the mapping with `mental_health_history` (as 0 or 1) first, followed by
the ten bounded scores in field-declaration order; the identity fields and
`info_date` are excluded. -/
theorem parse_features_contents (w : WorkerWithFeatures) :
    parse_features w =
      [("mental_health_history", if w.mental_health_history then 1 else 0),
       ("anxiety", w.anxiety),
       ("self_esteem", w.self_esteem),
       ("depression", w.depression),
       ("headache", w.headache),
       ("blood_pressure", w.blood_pressure),
       ("sleep_quality", w.sleep_quality),
       ("breathing_problem", w.breathing_problem),
       ("noise_level", w.noise_level),
       ("social_support", w.social_support),
       ("extracurricular_activities", w.extracurricular_activities)] := rfl

/-- C2 counterexample: class index -1 is outside the set of three valid
indices, yet `get_prediction` does not fail on it: Python negative
indexing makes `STRESS_LEVEL[-1]` the high-stress label. -/
theorem get_prediction_negative_index_ok :
    get_prediction true (-1) = Except.ok "Высокий уровень стресса" := rfl

/-- C2 (amended): `get_prediction` deterministically maps indices 0, 1, 2
to the three fixed labels verbatim; a failed model load gives the
load-failure error; indices at least 3 or at most -4 raise `IndexError`;
indices -1, -2, -3 wrap around by Python list indexing and yield the
high, medium and low labels respectively. -/
theorem get_prediction_characterization (i : Int) :
    get_prediction true 0 = Except.ok "Низкий уровень стресса" ∧
    get_prediction true 1 = Except.ok "Средний уровень стресса" ∧
    get_prediction true 2 = Except.ok "Высокий уровень стресса" ∧
    get_prediction false i = Except.error ModelFailure.loadFailure ∧
    (3 ≤ i → get_prediction true i = Except.error ModelFailure.indexFailure) ∧
    (i ≤ -4 → get_prediction true i = Except.error ModelFailure.indexFailure) ∧
    get_prediction true (-1) = Except.ok "Высокий уровень стресса" ∧
    get_prediction true (-2) = Except.ok "Средний уровень стресса" ∧
    get_prediction true (-3) = Except.ok "Низкий уровень стресса" := by
  refine ⟨rfl, rfl, rfl, rfl, ?_, ?_, rfl, rfl, rfl⟩
  · intro h3
    have h0 : (0 : Int) ≤ i := by omega
    have hlt : ¬ i < (STRESS_LEVEL.length : Int) := by
      simp only [STRESS_LEVEL, List.length]
      omega
    simp [get_prediction, pyListGet, h0, hlt]
  · intro h4
    have h0 : ¬ (0 : Int) ≤ i := by omega
    have hneg : ¬ (0 : Int) ≤ i + (STRESS_LEVEL.length : Int) := by
      simp only [STRESS_LEVEL, List.length]
      omega
    simp [get_prediction, pyListGet, h0, hneg]

/-- C2 witness: at the concrete out-of-range index 5 the characterization
yields the index failure. -/
theorem get_prediction_characterization_witness :
    get_prediction true 5 = Except.error ModelFailure.indexFailure :=
  (get_prediction_characterization 5).2.2.2.2.1 (by decide)

/-- C3: on a successful storage call, `create_worker` returns the success
message containing the worker's first and last name, but with response
status 200, not 201: the `status_code=201` in the handler signature is a
function parameter, not a route-decorator argument, so FastAPI keeps its
default success status. -/
theorem create_worker_responds_200 :
    create_worker true { first_name := "Иван", last_name := "Петров",
                         surname := "Иванович", mental_health_history := false } =
      Except.ok (200, "Работник Иван Петров был успешно добавлен") ∧
    create_worker_success_status ≠ 201 :=
  ⟨rfl, by decide⟩

/-- C4 counterexample: an identity payload whose `first_name` is the empty
string passes `WorkerBase` validation (and the full features validation),
contradicting the claim that empty identity fields are rejected. -/
theorem validate_accepts_empty_identity :
    WorkerBase.validate { first_name := some "", last_name := some "Петров",
                          surname := some "Иванович" } =
      some { first_name := "", last_name := "Петров", surname := "Иванович" } ∧
    (validate_WorkerWithFeatures
        { baseInput with first_name := some "" }).isSome = true := by
  decide

/-- C4 (amended): `WorkerBase` validation succeeds exactly when the three
identity fields are present; a missing field is rejected, but there is no
non-emptiness constraint, so any string value (including the empty string)
is accepted. -/
theorem workerBase_validate_iff_present (inp : IdentityInput) :
    (WorkerBase.validate inp).isSome = true ↔
      (inp.first_name.isSome = true ∧ inp.last_name.isSome = true ∧
       inp.surname.isSome = true) := by
  obtain ⟨f, l, sn⟩ := inp
  cases f <;> cases l <;> cases sn <;> simp [WorkerBase.validate]

/-- C5: if the feature save fails, `get_worker_stress_level` returns the
500 error with the features-specific message, the store is unchanged and
no prediction or prediction save is ever attempted; moreover, in any run
in which the classifier is called, the feature row has already been
persisted (feature persistence happens before prediction). -/
theorem save_features_failure_aborts_pipeline
    (env : PipelineEnv) (worker : WorkerWithFeatures) (s : Store)
    (h : env.featuresSaveOk = false) :
    (get_worker_stress_level env worker s).1 =
        Except.error { status_code := 500,
                       detail := "Не удалось сохранить показатели работника" } ∧
    (get_worker_stress_level env worker s).2.1 = s ∧
    (get_worker_stress_level env worker s).2.2 = [] ∧
    (∀ env2 : PipelineEnv,
      PipelineEvent.predictCalled ∈ (get_worker_stress_level env2 worker s).2.2 →
        featuresRow worker ∈ (get_worker_stress_level env2 worker s).2.1.features) := by
  refine ⟨?_, ?_, ?_, ?_⟩
  · simp [get_worker_stress_level, save_features, h]
  · simp [get_worker_stress_level, save_features, h]
  · simp [get_worker_stress_level, save_features, h]
  · intro env2 hmem
    cases hf2 : env2.featuresSaveOk with
    | false => simp [get_worker_stress_level, save_features, hf2] at hmem
    | true =>
      cases hp2 : get_prediction env2.modelLoaded
          (env2.classify (parse_features worker)) with
      | error f => simp [get_worker_stress_level, save_features, hf2, hp2]
      | ok lab =>
        cases hq2 : env2.predictionSaveOk with
        | false =>
            simp [get_worker_stress_level, save_features, save_prediction,
                  hf2, hp2, hq2]
        | true =>
            simp [get_worker_stress_level, save_features, save_prediction,
                  hf2, hp2, hq2]

/-- C5 witness: under the concrete environment whose feature save fails,
the pipeline on a concrete worker returns the features-specific 500. -/
theorem save_features_failure_aborts_pipeline_witness :
    (get_worker_stress_level envFeatFail worker0 store0).1 =
      Except.error { status_code := 500,
                     detail := "Не удалось сохранить показатели работника" } :=
  (save_features_failure_aborts_pipeline envFeatFail worker0 store0 rfl).1

/-- C6: if the prediction save fails after a successful feature save and a
successful prediction, the pipeline returns the 500 error with the
prediction-specific message while the feature row stays persisted (the
final feature list is the old one plus the new row; no rollback) and no
prediction row is written. -/
theorem save_prediction_failure_preserves_features
    (env : PipelineEnv) (worker : WorkerWithFeatures) (s : Store) (lab : String)
    (hf : env.featuresSaveOk = true)
    (hp : env.predictionSaveOk = false)
    (hm : get_prediction env.modelLoaded (env.classify (parse_features worker)) =
        Except.ok lab) :
    (get_worker_stress_level env worker s).1 =
        Except.error { status_code := 500,
                       detail := "Не удалось сохранить прогноз" } ∧
    (get_worker_stress_level env worker s).2.1.features =
        s.features ++ [featuresRow worker] ∧
    featuresRow worker ∈ (get_worker_stress_level env worker s).2.1.features ∧
    (get_worker_stress_level env worker s).2.1.predictions = s.predictions := by
  refine ⟨?_, ?_, ?_, ?_⟩ <;>
    simp [get_worker_stress_level, save_features, save_prediction, hf, hp, hm]

/-- C6 witness: under the concrete environment whose prediction save
fails, the pipeline on a concrete worker returns the prediction-specific
500 and keeps the feature row. -/
theorem save_prediction_failure_preserves_features_witness :
    (get_worker_stress_level envPredSaveFail worker0 store0).1 =
        Except.error { status_code := 500,
                       detail := "Не удалось сохранить прогноз" } ∧
    (get_worker_stress_level envPredSaveFail worker0 store0).2.1.features =
        store0.features ++ [featuresRow worker0] ∧
    featuresRow worker0 ∈
        (get_worker_stress_level envPredSaveFail worker0 store0).2.1.features ∧
    (get_worker_stress_level envPredSaveFail worker0 store0).2.1.predictions =
        store0.predictions :=
  save_prediction_failure_preserves_features envPredSaveFail worker0 store0
    "Низкий уровень стресса" rfl rfl rfl

/-- C7: for each of the ten bounded integer score fields, the inclusive
boundary values are accepted by validation while one below the minimum and
one above the maximum are rejected. -/
theorem bounded_fields_boundary_check : ∀ i : Fin 10,
    (validate_WorkerWithFeatures
        (setScore baseInput i.val (some (scoreLo i.val)))).isSome = true ∧
    (validate_WorkerWithFeatures
        (setScore baseInput i.val (some (scoreHi i.val)))).isSome = true ∧
    validate_WorkerWithFeatures
        (setScore baseInput i.val (some (scoreLo i.val - 1))) = none ∧
    validate_WorkerWithFeatures
        (setScore baseInput i.val (some (scoreHi i.val + 1))) = none := by
  decide

/-- C8: omitting `blood_pressure` makes validation succeed with the
default value 1, while omitting any of the other bounded score fields
makes validation fail. -/
theorem blood_pressure_default_and_required_fields :
    (validate_WorkerWithFeatures (setScore baseInput 4 none)).map
        (fun w => w.blood_pressure) = some 1 ∧
    validate_WorkerWithFeatures (setScore baseInput 0 none) = none ∧
    validate_WorkerWithFeatures (setScore baseInput 1 none) = none ∧
    validate_WorkerWithFeatures (setScore baseInput 2 none) = none ∧
    validate_WorkerWithFeatures (setScore baseInput 3 none) = none ∧
    validate_WorkerWithFeatures (setScore baseInput 5 none) = none ∧
    validate_WorkerWithFeatures (setScore baseInput 6 none) = none ∧
    validate_WorkerWithFeatures (setScore baseInput 7 none) = none ∧
    validate_WorkerWithFeatures (setScore baseInput 8 none) = none ∧
    validate_WorkerWithFeatures (setScore baseInput 9 none) = none := by
  decide

/-- C9 counterexample: the string with a single-digit month deviates from
the exact `YYYY-MM-DD HH:MM:SS` format yet is accepted by the `info_date`
parser, because `strptime` allows the leading zero of `%m`, `%d`, `%H`,
`%M`, `%S` to be omitted. -/
theorem parse_datetime_accepts_nonpadded :
    specExactFormat "2024-1-15 10:30:00" = false ∧
    parse_datetime "2024-1-15 10:30:00" =
      some { year := 2024, month := 1, day := 15,
             hour := 10, minute := 30, second := 0 } := by
  decide

/-- C9 (amended): `info_date` parses `"2024-01-15 10:30:00"` to that exact
instant; a missing time part, wrong separators, a `T` separator, garbage,
or a calendar-invalid day are validation failures (never a crash), and a
record carrying such a date fails validation; non-zero-padded components
are additionally accepted per `strptime`. -/
theorem parse_datetime_examples :
    parse_datetime "2024-01-15 10:30:00" =
      some { year := 2024, month := 1, day := 15,
             hour := 10, minute := 30, second := 0 } ∧
    parse_datetime "2024-01-15" = none ∧
    parse_datetime "2024/01/15 10:30:00" = none ∧
    parse_datetime "2024-01-15T10:30:00" = none ∧
    parse_datetime "not a date" = none ∧
    parse_datetime "15-01-2024 10:30:00" = none ∧
    parse_datetime "2024-02-30 10:30:00" = none ∧
    parse_datetime "2024-1-15 10:30:00" =
      some { year := 2024, month := 1, day := 15,
             hour := 10, minute := 30, second := 0 } ∧
    validate_WorkerWithFeatures { baseInput with info_date := some "2024-01-15" } =
      none := by
  decide

/-- C10: whenever the pipeline succeeds, the returned record carries
exactly the input worker's first name, last name and surname, and its only
other field is the stress level produced by the prediction step; the input
record is a pure value and is not modified. -/
theorem pipeline_preserves_identity
    (env : PipelineEnv) (worker : WorkerWithFeatures) (s : Store)
    (wp : WorkerWithPrediction)
    (h : (get_worker_stress_level env worker s).1 = Except.ok wp) :
    wp.first_name = worker.first_name ∧ wp.last_name = worker.last_name ∧
    wp.surname = worker.surname ∧
    get_prediction env.modelLoaded (env.classify (parse_features worker)) =
      Except.ok wp.stress_level := by
  cases hf : env.featuresSaveOk with
  | false => simp [get_worker_stress_level, save_features, hf] at h
  | true =>
    cases hm : get_prediction env.modelLoaded
        (env.classify (parse_features worker)) with
    | error f => simp [get_worker_stress_level, save_features, hf, hm] at h
    | ok lab =>
      cases hq : env.predictionSaveOk with
      | false =>
          simp [get_worker_stress_level, save_features, save_prediction,
                hf, hm, hq] at h
      | true =>
          simp [get_worker_stress_level, save_features, save_prediction,
                hf, hm, hq] at h
          subst h
          exact ⟨rfl, rfl, rfl, rfl⟩

/-- C10 witness: the concrete all-success run returns the record with the
input identity and the medium-stress label. -/
theorem pipeline_preserves_identity_witness :
    wp0.first_name = worker0.first_name ∧ wp0.last_name = worker0.last_name ∧
    wp0.surname = worker0.surname ∧
    get_prediction envAllOk.modelLoaded
        (envAllOk.classify (parse_features worker0)) =
      Except.ok wp0.stress_level :=
  pipeline_preserves_identity envAllOk worker0 store0 wp0 rfl
